import Mathlib

/-!
Shallow embedding of the auth-refresh-queue core (src/core/RequestQueue.ts and
src/core/AuthCore.ts) and proofs about it.

Modelling conventions:
* A `Task` (waiter) is represented by an opaque identity of type `τ`; its two
  callbacks are not stored as functions but observed through an explicit event
  trace (`Ev`): invoking `task.resolve(v)` is the event `Ev.resolved t v`,
  invoking `task.reject(e)` is `Ev.rejected t e`.  The optional argument of the
  JS `resolve(value?)` callback is an `Option Bool`: `some true` models the JS
  literal `true` passed explicitly, `none` models an absent argument.
* Errors flowing through the reject channel are `CoreError ε`: either an
  arbitrary value raised by the adapter refresh (`raised`), or a JS
  `new Error(msg)` synthesized by the core (`errorMsg msg`).
* The async `on401` is split at its single suspension point (the `await` of
  `adapter.refreshToken()`): `on401Sync` is the synchronous prefix executed at
  call time, `on401Resume` is the continuation executed when the refresh
  promise settles.  The adapter refresh outcome is a value
  `Except ε (Option String)`: `.error e` models a rejection, `.ok none` a
  resolution with `null`, `.ok (some tok)` a resolution with the string `tok`
  (the source guard `if (newToken)` is JS truthiness, false for both `null`
  and the empty string).
-/

namespace AuthRefreshQueue

/-- A JS `new Error(msg)` synthesized by the core, or an arbitrary raised
value propagated unmodified. -/
inductive CoreError (ε : Type) where
  | raised (e : ε)
  | errorMsg (msg : String)
  deriving DecidableEq, Repr

/-- Observable events of one scenario: adapter calls and waiter callback
invocations, in execution order. -/
inductive Ev (τ ε : Type) where
  | refreshCalled
  | applyToken (tok : String)
  | resolved (t : τ) (v : Option Bool)
  | rejected (t : τ) (e : CoreError ε)
  | logout
  deriving DecidableEq, Repr

/-- Does this event invoke a callback of waiter `x`? -/
def Ev.mentions {τ ε : Type} (x : τ) : Ev τ ε → Prop
  | .resolved t _ => t = x
  | .rejected t _ => t = x
  | _ => False

instance {τ ε : Type} [DecidableEq τ] (x : τ) (ev : Ev τ ε) :
    Decidable (ev.mentions x) := by
  cases ev <;> simp [Ev.mentions] <;> infer_instance

/-- Embedding of `class RequestQueue` (src/core/RequestQueue.ts): a private
array of tasks plus the `maxSize` bound. -/
structure RequestQueue (τ : Type) where
  queue : List τ
  maxSize : Nat
  deriving DecidableEq, Repr

/-- The message of the overflow error thrown by `RequestQueue.add`:
`Queue overflow: maximum size of ${this.maxSize} exceeded`. -/
def overflowMsg (maxSize : Nat) : String :=
  "Queue overflow: maximum size of " ++ toString maxSize ++ " exceeded"

/-- Source `constructor(maxSize: number = 100)`: the default parameter applies only
when the argument is absent (`none`). -/
def RequestQueue.new {τ : Type} (maxSize : Option Nat) : RequestQueue τ :=
  ⟨[], maxSize.getD 100⟩

/-- Source `add(task)`: throws the overflow error when `queue.length >= maxSize`
(the throw precedes the push, so on failure the stored array is untouched);
otherwise pushes the task at the tail. -/
def RequestQueue.add {τ : Type} (q : RequestQueue τ) (t : τ) :
    Except String (RequestQueue τ) :=
  if q.queue.length ≥ q.maxSize then
    .error (overflowMsg q.maxSize)
  else
    .ok { q with queue := q.queue ++ [t] }

/-- Source `clear()`: `this.queue = []`. -/
def RequestQueue.clear {τ : Type} (q : RequestQueue τ) : RequestQueue τ :=
  { q with queue := [] }

/-- Source `size()`: `this.queue.length`. -/
def RequestQueue.size {τ : Type} (q : RequestQueue τ) : Nat :=
  q.queue.length

/-- Source `process()`: `this.queue.forEach(task => task.resolve(true)); this.clear()`.
Returns the emitted events (one `resolved t (some true)` per queued task, in
array order) and the cleared queue.  This is the run of the source loop when
no callback mutates the queue; `processReentrant` below models the general
reentrant run. -/
def RequestQueue.process {τ ε : Type} (q : RequestQueue τ) :
    List (Ev τ ε) × RequestQueue τ :=
  (q.queue.map (fun t => Ev.resolved t (some true)), q.clear)

/-- Source `rejectAll(error)`: `this.queue.forEach(task => task.reject(error));
this.clear()`. -/
def RequestQueue.rejectAll {τ ε : Type} (q : RequestQueue τ) (err : CoreError ε) :
    List (Ev τ ε) × RequestQueue τ :=
  (q.queue.map (fun t => Ev.rejected t err), q.clear)

/-- Sequential admission of a list of tasks, stopping at the first overflow
(used to state the overflow-boundary property). -/
def RequestQueue.addAll {τ : Type} :
    RequestQueue τ → List τ → Except String (RequestQueue τ)
  | q, [] => .ok q
  | q, t :: ts =>
    match q.add t with
    | .ok q2 => q2.addAll ts
    | .error msg => .error msg

/-- The body of the `forEach` loop of `process()` under reentrant callbacks:
`snapshot` is the element range fixed when `forEach` starts (appended elements
are not visited), `live` is the live array, and `effect t` lists the tasks the
resolve callback of `t` pushes onto the live array while running.  Returns the
emitted events and the live array when the loop ends. -/
def forEachResolveLoop {τ ε : Type} (snapshot live : List τ)
    (effect : τ → List τ) : List (Ev τ ε) × List τ :=
  match snapshot with
  | [] => ([], live)
  | t :: rest =>
    let r := forEachResolveLoop rest (live ++ effect t) effect
    (Ev.resolved t (some true) :: r.1, r.2)

/-- The body of the `forEach` loop of `rejectAll(error)` under reentrant
callbacks, analogous to `forEachResolveLoop`. -/
def forEachRejectLoop {τ ε : Type} (snapshot live : List τ)
    (effect : τ → List τ) (err : CoreError ε) : List (Ev τ ε) × List τ :=
  match snapshot with
  | [] => ([], live)
  | t :: rest =>
    let r := forEachRejectLoop rest (live ++ effect t) effect err
    (Ev.rejected t err :: r.1, r.2)

/-- Source `process()` under reentrant callbacks: runs the `forEach` loop over the
snapshot of the array, then `clear()`.  Returns the events, the live array
just before `clear()` runs, and the final queue. -/
def RequestQueue.processReentrant {τ ε : Type} (q : RequestQueue τ)
    (effect : τ → List τ) : List (Ev τ ε) × List τ × RequestQueue τ :=
  let r := forEachResolveLoop (ε := ε) q.queue q.queue effect
  (r.1, r.2, q.clear)

/-- Source `rejectAll(error)` under reentrant callbacks, analogous to
`processReentrant`. -/
def RequestQueue.rejectAllReentrant {τ ε : Type} (q : RequestQueue τ)
    (effect : τ → List τ) (err : CoreError ε) :
    List (Ev τ ε) × List τ × RequestQueue τ :=
  let r := forEachRejectLoop q.queue q.queue effect err
  (r.1, r.2, q.clear)

/-- Duck-typed view of an arbitrary JS error value, as far as the default
heuristics of `isAuthError` inspect it: the status of a nested `response`
field if both exist, the own `status` field if it exists, and whether the
value is an `instanceof Response`. -/
structure JsErrVal where
  responseStatus : Option Nat := none
  status : Option Nat := none
  isResponse : Bool := false
  deriving DecidableEq, Repr

/-- The injected adapter (src/core/types.ts `IAdapter`): `refreshToken` and
`applyToken` are observed through events; `hasLogout` records whether the
optional `logout` member is present (the source guard `this.adapter?.logout`). -/
structure Adapter where
  hasLogout : Bool
  deriving DecidableEq, Repr

/-- Source `AuthCoreOptions` (src/core/AuthCore.ts): optional custom classifier and
optional maximum queue size. -/
structure AuthCoreOptions where
  shouldRefresh : Option (JsErrVal → Bool) := none
  maxQueueSize : Option Nat := none

/-- Embedding of `class AuthCore`: the options, the `isRefreshing` flag, the
owned `RequestQueue`, and the adapter slot (initially `null`). -/
structure AuthCore (τ : Type) where
  options : AuthCoreOptions
  isRefreshing : Bool
  queue : RequestQueue τ
  adapter : Option Adapter

/-- Source `constructor(options = \x7b\x7d)`: `this.queue = new RequestQueue(options.maxQueueSize)`,
`isRefreshing = false`, `adapter = null`. -/
def AuthCore.new {τ : Type} (opts : AuthCoreOptions) : AuthCore τ :=
  ⟨opts, false, RequestQueue.new opts.maxQueueSize, none⟩

/-- Source `registerAdapter(adapter)`: `this.adapter = adapter`. -/
def AuthCore.registerAdapter {τ : Type} (s : AuthCore τ) (a : Adapter) :
    AuthCore τ :=
  { s with adapter := some a }

/-- Source `isAuthError(error)`: delegate to `options.shouldRefresh` when present,
otherwise the default heuristics
`err?.response?.status === 401 || err?.status === 401 ||
(err instanceof Response && err.status === 401)`. -/
def AuthCore.isAuthError {τ : Type} (s : AuthCore τ) (e : JsErrVal) : Bool :=
  match s.options.shouldRefresh with
  | some f => f e
  | none =>
      (e.responseStatus == some 401)
        || (e.status == some 401)
        || (e.isResponse && e.status == some 401)

/-- Source `get refreshing()`: `this.isRefreshing`. -/
def AuthCore.refreshing {τ : Type} (s : AuthCore τ) : Bool :=
  s.isRefreshing

/-- Source `get queueSize()`: `this.queue.size()`. -/
def AuthCore.queueSize {τ : Type} (s : AuthCore τ) : Nat :=
  s.queue.size

/-- Source `private handleRefreshFailure(error)`: `this.queue.rejectAll(error)`, then
`if (this.adapter?.logout) this.adapter.logout()`. -/
def AuthCore.handleRefreshFailure {τ ε : Type} (s : AuthCore τ)
    (err : CoreError ε) : AuthCore τ × List (Ev τ ε) :=
  let r := s.queue.rejectAll err
  ({ s with queue := r.2 },
    r.1 ++ (match s.adapter with
            | some a => if a.hasLogout then [Ev.logout] else []
            | none => []))

/-- Where the synchronous prefix of `on401` stops. -/
inductive SyncPhase (τ : Type) where
  | pendingWait (w : τ)
  | pendingOverflow (msg : String)
  | awaitingRefresh (w : τ)
  | completed
  deriving DecidableEq, Repr

/-- Result of the synchronous prefix of one `on401` call: the state when the
prefix yields, the events it emitted, and where it stopped. -/
structure SyncStep (τ ε : Type) where
  state : AuthCore τ
  events : List (Ev τ ε)
  phase : SyncPhase τ

/-- The synchronous prefix of `async on401()`, with `w` the fresh waiter built
from the resolve and reject callbacks of the returned promise:
* if `isRefreshing`, just `queue.add` the waiter and return the promise
  (`pendingWait`); when `add` throws inside the promise executor, the returned
  promise rejects with the overflow error (`pendingOverflow`) and the state is
  untouched;
* otherwise set `isRefreshing = true`, `queue.add` the current waiter (again,
  an executor throw leaves the waiter unstored but execution continues), then
  inside `try`: when no adapter is registered, throw, which runs
  `handleRefreshFailure` with the synthesized adapter-not-registered error in `catch` and
  `isRefreshing = false` in `finally`, all synchronously (`completed`); when an
  adapter is present, invoke `adapter.refreshToken()` and suspend at the
  `await` (`awaitingRefresh`). -/
def AuthCore.on401Sync {τ ε : Type} (s : AuthCore τ) (w : τ) : SyncStep τ ε :=
  if s.isRefreshing then
    match s.queue.add w with
    | .ok q => ⟨{ s with queue := q }, [], .pendingWait w⟩
    | .error msg => ⟨s, [], .pendingOverflow msg⟩
  else
    let s1 : AuthCore τ :=
      match s.queue.add w with
      | .ok q => { s with isRefreshing := true, queue := q }
      | .error _ => { s with isRefreshing := true }
    match s1.adapter with
    | none =>
      let r := s1.handleRefreshFailure (ε := ε) (.errorMsg "Adapter not registered")
      ⟨{ r.1 with isRefreshing := false }, r.2, .completed⟩
    | some _ => ⟨s1, [Ev.refreshCalled], .awaitingRefresh w⟩

/-- The continuation of `on401` after `await this.adapter.refreshToken()`
settles with `res`:
* resolution with a truthy token (`some tok`, `tok ≠ ""`): `applyToken(tok)`
  then `queue.process()`;
* resolution with a falsy token (`null` or the empty string): `catch`-free path
  into `handleRefreshFailure` with the synthesized token-refresh-failed error;
* rejection with `e`: `handleRefreshFailure(e)` with the raised value
  unmodified;
followed in every case by `isRefreshing = false` in `finally`. -/
def AuthCore.on401Resume {τ ε : Type} (s : AuthCore τ)
    (res : Except ε (Option String)) : AuthCore τ × List (Ev τ ε) :=
  match res with
  | .ok (some tok) =>
    if tok == "" then
      let r := s.handleRefreshFailure (ε := ε) (.errorMsg "Token refresh failed")
      ({ r.1 with isRefreshing := false }, r.2)
    else
      let r := s.queue.process (ε := ε)
      ({ s with isRefreshing := false, queue := r.2 }, Ev.applyToken tok :: r.1)
  | .ok none =>
    let r := s.handleRefreshFailure (ε := ε) (.errorMsg "Token refresh failed")
    ({ r.1 with isRefreshing := false }, r.2)
  | .error e =>
    let r := s.handleRefreshFailure (.raised e)
    ({ r.1 with isRefreshing := false }, r.2)

/-- The failure reason `on401Resume` distributes to the waiters when the
refresh outcome `res` is a failure (`none` when it is a success): the raised
value unmodified, or the synthesized fixed-message error when the credential
was falsy. -/
def refreshFailReason {ε : Type} : Except ε (Option String) → Option (CoreError ε)
  | .error e => some (.raised e)
  | .ok none => some (.errorMsg "Token refresh failed")
  | .ok (some tok) =>
      if tok == "" then some (.errorMsg "Token refresh failed") else none

/-- Runs the synchronous prefixes of a sequence of `on401` calls that arrive
before the in-flight refresh settles, concatenating their event traces. -/
def AuthCore.runCalls {τ ε : Type} :
    AuthCore τ → List τ → AuthCore τ × List (Ev τ ε)
  | s, [] => (s, [])
  | s, w :: ws =>
    let st := s.on401Sync (ε := ε) w
    let r := st.state.runCalls ws
    (r.1, st.events ++ r.2)

/-- A full single-cycle scenario: construct with `opts`, register adapter `a`,
issue the triggering `on401` call (waiter `trigger`) and then the calls
`others` while the refresh is pending, and finally resume with the refresh
outcome `res`.  Returns the final state and the whole event trace. -/
def AuthCore.scenario {τ ε : Type} (opts : AuthCoreOptions) (a : Adapter)
    (res : Except ε (Option String)) (trigger : τ) (others : List τ) :
    AuthCore τ × List (Ev τ ε) :=
  let r1 := ((AuthCore.new opts).registerAdapter a).runCalls (ε := ε)
      (trigger :: others)
  let r2 := r1.1.on401Resume res
  (r2.1, r1.2 ++ r2.2)

/-- Number of `refreshCalled` events in a trace: how many times
`adapter.refreshToken()` was invoked. -/
def countRefreshCalled {τ ε : Type} (evs : List (Ev τ ε)) : Nat :=
  (evs.filter (fun ev => match ev with
    | Ev.refreshCalled => true
    | _ => false)).length

/-! Helper lemmas about `RequestQueue`. -/

theorem RequestQueue.add_ok_of_lt {τ : Type} (q : RequestQueue τ) (t : τ)
    (h : q.queue.length < q.maxSize) :
    q.add t = .ok { q with queue := q.queue ++ [t] } := by
  simp [RequestQueue.add, Nat.not_le.mpr h]

theorem RequestQueue.add_error_of_ge {τ : Type} (q : RequestQueue τ) (t : τ)
    (h : q.maxSize ≤ q.queue.length) :
    q.add t = .error (overflowMsg q.maxSize) := by
  simp [RequestQueue.add, h]

theorem RequestQueue.addAll_ok {τ : Type} :
    ∀ (ids : List τ) (q : RequestQueue τ),
      q.queue.length + ids.length ≤ q.maxSize →
      q.addAll ids = .ok ⟨q.queue ++ ids, q.maxSize⟩ := by
  intro ids
  induction ids with
  | nil =>
    intro q h
    simp [RequestQueue.addAll]
  | cons t ts ih =>
    intro q h
    rw [List.length_cons] at h
    have hlt : q.queue.length < q.maxSize := by omega
    have hstep := ih { q with queue := q.queue ++ [t] } (by simp; omega)
    simp [RequestQueue.addAll, RequestQueue.add_ok_of_lt q t hlt, hstep]

theorem forEachResolveLoop_spec {τ ε : Type} (effect : τ → List τ) :
    ∀ (snapshot live : List τ),
      (forEachResolveLoop (ε := ε) snapshot live effect).1
          = snapshot.map (fun t => Ev.resolved t (some true))
        ∧ (forEachResolveLoop (ε := ε) snapshot live effect).2
          = live ++ (snapshot.map effect).flatten := by
  intro snapshot
  induction snapshot with
  | nil =>
    intro live
    simp [forEachResolveLoop]
  | cons t rest ih =>
    intro live
    have h := ih (live ++ effect t)
    simp [forEachResolveLoop, h.1, h.2]

theorem forEachRejectLoop_spec {τ ε : Type} (effect : τ → List τ)
    (err : CoreError ε) :
    ∀ (snapshot live : List τ),
      (forEachRejectLoop snapshot live effect err).1
          = snapshot.map (fun t => Ev.rejected t err)
        ∧ (forEachRejectLoop snapshot live effect err).2
          = live ++ (snapshot.map effect).flatten := by
  intro snapshot
  induction snapshot with
  | nil =>
    intro live
    simp [forEachRejectLoop]
  | cons t rest ih =>
    intro live
    have h := ih (live ++ effect t)
    simp [forEachRejectLoop, h.1, h.2]

/-! Claim theorems about `RequestQueue`. -/

/-- Claim C4: for every non-empty queue, `process()` invokes the success
callback of every currently-queued waiter with the explicit value `true`
(an argument that is present, `some true`, never absent), in FIFO admission
order, and then empties the queue. -/
theorem process_resolves_true_fifo {τ ε : Type} (q : RequestQueue τ)
    (_h : q.queue ≠ []) :
    (q.process (ε := ε)).1 = q.queue.map (fun t => Ev.resolved t (some true))
      ∧ (q.process (ε := ε)).2.queue = [] :=
  ⟨rfl, rfl⟩

/-- Witness for `process_resolves_true_fifo` at the concrete queue
`[0, 1, 2]`. -/
theorem process_resolves_true_fifo_witness :
    (RequestQueue.mk [0, 1, 2] 100).queue ≠ ([] : List Nat)
      ∧ ((RequestQueue.mk [0, 1, 2] 100).process (ε := String)).1
          = (RequestQueue.mk [0, 1, 2] 100).queue.map
              (fun t => Ev.resolved t (some true))
      ∧ ((RequestQueue.mk [0, 1, 2] 100).process (ε := String)).2.queue = [] :=
  ⟨by decide,
   process_resolves_true_fifo (ε := String) (RequestQueue.mk [0, 1, 2] 100)
     (by decide)⟩

/-- Claim C5: with capacity `C`, admitting `C` waiters via `add` succeeds;
the next `add` fails with the overflow error whose message carries `C`, the
rejected waiter is not stored (the failing `add` yields no updated queue, as
the throw precedes the push), and the stored waiter count stays `C`. -/
theorem overflow_boundary {τ : Type} (C : Nat) (ids : List τ)
    (h : ids.length = C) :
    (RequestQueue.new (some C) : RequestQueue τ).addAll ids = .ok ⟨ids, C⟩
      ∧ (∀ t : τ, (RequestQueue.mk ids C).add t = .error (overflowMsg C))
      ∧ (RequestQueue.mk ids C).size = C := by
  refine ⟨?_, ?_, h⟩
  · have := RequestQueue.addAll_ok ids (RequestQueue.new (some C))
      (by simp [RequestQueue.new, h])
    simpa [RequestQueue.new] using this
  · intro t
    exact RequestQueue.add_error_of_ge (RequestQueue.mk ids C) t (by simp [h])

/-- Witness for `overflow_boundary` at capacity 2 with waiters `[10, 20]`. -/
theorem overflow_boundary_witness :
    ([10, 20] : List Nat).length = 2
      ∧ ((RequestQueue.new (some 2) : RequestQueue Nat).addAll [10, 20]
          = .ok ⟨[10, 20], 2⟩
        ∧ (∀ t : Nat, (RequestQueue.mk [10, 20] 2).add t
            = .error (overflowMsg 2))
        ∧ (RequestQueue.mk [10, 20] 2).size = 2) :=
  ⟨by decide, overflow_boundary 2 [10, 20] (by decide)⟩

/-- Claim C9: when no capacity is supplied the queue capacity is 100; a
supplied capacity is taken verbatim, and the coordinator constructor forwards
its `maxQueueSize` option verbatim to the owned queue; capacity 0 (the
boundary of the non-positive values expressible here) is not usable as a
configuration, since it makes every admission fail. -/
theorem queue_capacity_config {τ : Type} :
    (RequestQueue.new none : RequestQueue τ).maxSize = 100
      ∧ (∀ c : Nat, (RequestQueue.new (some c) : RequestQueue τ).maxSize = c)
      ∧ (∀ opts : AuthCoreOptions,
          (AuthCore.new opts : AuthCore τ).queue
            = RequestQueue.new opts.maxQueueSize)
      ∧ (∀ t : τ, (RequestQueue.new (some 0) : RequestQueue τ).add t
          = .error (overflowMsg 0)) := by
  refine ⟨rfl, fun c => rfl, fun opts => rfl, fun t => ?_⟩
  exact RequestQueue.add_error_of_ge _ t (by simp [RequestQueue.new])

/-- Claim C10: a waiter pushed onto the queue by a callback running inside
`process()` (or `rejectAll()`) is present in the live array when the loop
ends, is removed by the trailing `clear()`, and none of its callbacks is ever
invoked. -/
theorem reentrant_added_waiter_dropped {τ ε : Type} (q : RequestQueue τ)
    (effect : τ → List τ) (err : CoreError ε) (t x : τ)
    (ht : t ∈ q.queue) (hx : x ∈ effect t) (hnx : x ∉ q.queue) :
    (x ∈ (q.processReentrant (ε := ε) effect).2.1
        ∧ (∀ ev ∈ (q.processReentrant (ε := ε) effect).1, ¬ ev.mentions x)
        ∧ (q.processReentrant (ε := ε) effect).2.2.queue = [])
      ∧ (x ∈ (q.rejectAllReentrant effect err).2.1
        ∧ (∀ ev ∈ (q.rejectAllReentrant effect err).1, ¬ ev.mentions x)
        ∧ (q.rejectAllReentrant effect err).2.2.queue = []) := by
  have hres := forEachResolveLoop_spec (ε := ε) effect q.queue q.queue
  have hrej := forEachRejectLoop_spec effect err q.queue q.queue
  have hlive : x ∈ q.queue ++ (q.queue.map effect).flatten := by
    refine List.mem_append.mpr (Or.inr ?_)
    exact List.mem_flatten.mpr ⟨effect t, List.mem_map_of_mem effect ht, hx⟩
  constructor
  · refine ⟨?_, ?_, rfl⟩
    · simpa [RequestQueue.processReentrant, hres.2] using hlive
    · intro ev hev
      have hfst : (q.processReentrant (ε := ε) effect).1
          = (forEachResolveLoop (ε := ε) q.queue q.queue effect).1 := rfl
      rw [hfst, hres.1] at hev
      obtain ⟨t2, ht2, rfl⟩ := List.mem_map.mp hev
      simp only [Ev.mentions]
      intro hx2
      exact hnx (hx2 ▸ ht2)
  · refine ⟨?_, ?_, rfl⟩
    · simpa [RequestQueue.rejectAllReentrant, hrej.2] using hlive
    · intro ev hev
      have hfst : (q.rejectAllReentrant effect err).1
          = (forEachRejectLoop q.queue q.queue effect err).1 := rfl
      rw [hfst, hrej.1] at hev
      obtain ⟨t2, ht2, rfl⟩ := List.mem_map.mp hev
      simp only [Ev.mentions]
      intro hx2
      exact hnx (hx2 ▸ ht2)

/-- Witness for `reentrant_added_waiter_dropped`: queue `[0]`, whose callback
pushes waiter `5` during the loop. -/
theorem reentrant_added_waiter_dropped_witness :
    (0 ∈ (RequestQueue.mk [0] 100).queue
        ∧ 5 ∈ (fun _ : Nat => [5]) 0
        ∧ 5 ∉ (RequestQueue.mk [0] 100).queue)
      ∧ ((5 ∈ ((RequestQueue.mk [0] 100).processReentrant (ε := String)
              (fun _ => [5])).2.1
          ∧ (∀ ev ∈ ((RequestQueue.mk [0] 100).processReentrant (ε := String)
                (fun _ => [5])).1, ¬ ev.mentions 5)
          ∧ ((RequestQueue.mk [0] 100).processReentrant (ε := String)
              (fun _ => [5])).2.2.queue = [])
        ∧ (5 ∈ ((RequestQueue.mk [0] 100).rejectAllReentrant (fun _ => [5])
              (CoreError.errorMsg "boom" : CoreError String)).2.1
          ∧ (∀ ev ∈ ((RequestQueue.mk [0] 100).rejectAllReentrant
                (fun _ => [5]) (CoreError.errorMsg "boom" : CoreError String)).1, ¬ ev.mentions 5)
          ∧ ((RequestQueue.mk [0] 100).rejectAllReentrant (fun _ => [5])
              (CoreError.errorMsg "boom" : CoreError String)).2.2.queue = [])) :=
  ⟨⟨by decide, by simp, by decide⟩,
   reentrant_added_waiter_dropped (RequestQueue.mk [0] 100) (fun _ => [5])
     (CoreError.errorMsg "boom" : CoreError String) 0 5 (by decide) (by simp) (by decide)⟩

/-- A concrete coordinator configured with the constant-false custom
classifier, used by witnesses. -/
def customFalseCore : AuthCore Nat :=
  AuthCore.new ⟨some (fun _ => false), none⟩

/-- A concrete coordinator with default options, used by witnesses. -/
def defaultCore : AuthCore Nat :=
  AuthCore.new ⟨none, none⟩

/-! Claim theorems about the classifier. -/

/-- Claim C7: when a custom classifier is configured, `isAuthError` returns
exactly its result on every input, so the default heuristics are never
consulted. -/
theorem classifier_precedence {τ : Type} (s : AuthCore τ)
    (f : JsErrVal → Bool) (e : JsErrVal)
    (h : s.options.shouldRefresh = some f) :
    s.isAuthError e = f e := by
  simp [AuthCore.isAuthError, h]

/-- Witness for `classifier_precedence`: a constant-false classifier beats an
input every default heuristic matches. -/
theorem classifier_precedence_witness :
    customFalseCore.options.shouldRefresh = some (fun _ => false)
      ∧ customFalseCore.isAuthError ⟨some 401, some 401, true⟩
        = (fun _ => false) (⟨some 401, some 401, true⟩ : JsErrVal) :=
  ⟨rfl,
   classifier_precedence customFalseCore
     (fun _ => false) ⟨some 401, some 401, true⟩ rfl⟩

/-- Claim C8: with no custom classifier, `isAuthError` is true for a nested
response status 401, for an own status field 401, and for a response-like
value with status 401, and false for everything else, in particular for
nested status 403 and own status 500. -/
theorem default_classifier_truth_table {τ : Type} (s : AuthCore τ)
    (h : s.options.shouldRefresh = none) :
    s.isAuthError ⟨some 401, none, false⟩ = true
      ∧ s.isAuthError ⟨none, some 401, false⟩ = true
      ∧ s.isAuthError ⟨none, some 401, true⟩ = true
      ∧ s.isAuthError ⟨some 403, none, false⟩ = false
      ∧ s.isAuthError ⟨none, some 500, false⟩ = false
      ∧ (∀ e : JsErrVal, e.responseStatus ≠ some 401 → e.status ≠ some 401 →
          s.isAuthError e = false) := by
  refine ⟨by simp [AuthCore.isAuthError, h], by simp [AuthCore.isAuthError, h],
    by simp [AuthCore.isAuthError, h], by simp [AuthCore.isAuthError, h],
    by simp [AuthCore.isAuthError, h], ?_⟩
  intro e h1 h2
  simp [AuthCore.isAuthError, h, h1, h2]

/-- Witness for `default_classifier_truth_table` on a default-constructed
coordinator. -/
theorem default_classifier_truth_table_witness :
    defaultCore.options.shouldRefresh = none
      ∧ (defaultCore.isAuthError
            ⟨some 401, none, false⟩ = true
        ∧ defaultCore.isAuthError
            ⟨none, some 401, false⟩ = true
        ∧ defaultCore.isAuthError
            ⟨none, some 401, true⟩ = true
        ∧ defaultCore.isAuthError
            ⟨some 403, none, false⟩ = false
        ∧ defaultCore.isAuthError
            ⟨none, some 500, false⟩ = false
        ∧ (∀ e : JsErrVal, e.responseStatus ≠ some 401 → e.status ≠ some 401 →
            defaultCore.isAuthError e = false)) :=
  ⟨rfl, default_classifier_truth_table defaultCore rfl⟩

/-! Helper lemmas about the coordinator state machine. -/

/-- While a refresh is in flight, the synchronous prefix of a later `on401`
call emits no event (in particular it never invokes the adapter refresh),
keeps the coordinator in the refreshing state, and, when the queue is below
capacity, appends exactly the new waiter. -/
theorem on401Sync_refreshing {τ ε : Type} (s : AuthCore τ) (w : τ)
    (h : s.isRefreshing = true) :
    (s.on401Sync (ε := ε) w).events = []
      ∧ (s.on401Sync (ε := ε) w).state.isRefreshing = true
      ∧ (s.queue.queue.length < s.queue.maxSize →
          (s.on401Sync (ε := ε) w).state.queue.queue
            = s.queue.queue ++ [w]) := by
  cases hadd : s.queue.add w with
  | ok q =>
    refine ⟨by simp [AuthCore.on401Sync, h, hadd], by simp [AuthCore.on401Sync, h, hadd], ?_⟩
    intro hlt
    rw [RequestQueue.add_ok_of_lt s.queue w hlt] at hadd
    cases hadd
    simp [AuthCore.on401Sync, h, RequestQueue.add_ok_of_lt s.queue w hlt]
  | error msg =>
    refine ⟨by simp [AuthCore.on401Sync, h, hadd], by simp [AuthCore.on401Sync, h, hadd], ?_⟩
    intro hlt
    rw [RequestQueue.add_ok_of_lt s.queue w hlt] at hadd
    cases hadd

/-- Folding the synchronous prefixes of a batch of calls over a refreshing
coordinator emits no events at all. -/
theorem runCalls_refreshing_events {τ ε : Type} :
    ∀ (ws : List τ) (s : AuthCore τ), s.isRefreshing = true →
      (s.runCalls (ε := ε) ws).2 = [] := by
  intro ws
  induction ws with
  | nil =>
    intro s h
    rfl
  | cons w ws ih =>
    intro s h
    cases hadd : s.queue.add w with
    | ok q =>
      simp [AuthCore.runCalls, AuthCore.on401Sync, h, hadd]
      exact ih _ (by simp [h])
    | error msg =>
      simp [AuthCore.runCalls, AuthCore.on401Sync, h, hadd]
      exact ih s h

/-- Folding the synchronous prefixes of a batch of calls over a refreshing
coordinator with enough spare capacity appends exactly those waiters, in
arrival order, and emits no events. -/
theorem runCalls_refreshing_full {τ ε : Type} :
    ∀ (ws : List τ) (o : AuthCoreOptions) (qs : List τ) (M : Nat)
      (ad : Option Adapter),
      qs.length + ws.length ≤ M →
      AuthCore.runCalls (ε := ε) ⟨o, true, ⟨qs, M⟩, ad⟩ ws
        = (⟨o, true, ⟨qs ++ ws, M⟩, ad⟩, []) := by
  intro ws
  induction ws with
  | nil =>
    intro o qs M ad h
    simp [AuthCore.runCalls]
  | cons w ws ih =>
    intro o qs M ad h
    rw [List.length_cons] at h
    have hlt : qs.length < M := by omega
    have hadd := RequestQueue.add_ok_of_lt (⟨qs, M⟩ : RequestQueue τ) w hlt
    have hrest := ih o (qs ++ [w]) M ad (by simp; omega)
    simp [AuthCore.runCalls, AuthCore.on401Sync, hadd, hrest]

/-- A freshly constructed coordinator with a registered adapter, after the
triggering call and `others` further calls that all arrive before the refresh
settles: the refresh was started, every caller is queued in FIFO order, and
the only event so far is the single refresh invocation. -/
theorem runCalls_from_idle {τ ε : Type} (opts : AuthCoreOptions) (a : Adapter)
    (trigger : τ) (others : List τ)
    (hcap : others.length + 1 ≤ opts.maxQueueSize.getD 100) :
    ((AuthCore.new opts).registerAdapter a).runCalls (ε := ε)
        (trigger :: others)
      = (⟨opts, true, ⟨trigger :: others, opts.maxQueueSize.getD 100⟩, some a⟩,
         [Ev.refreshCalled]) := by
  have hlt : ([] : List τ).length < opts.maxQueueSize.getD 100 := by
    simp
    omega
  have hadd := RequestQueue.add_ok_of_lt
    (⟨[], opts.maxQueueSize.getD 100⟩ : RequestQueue τ) trigger hlt
  have hrest := runCalls_refreshing_full (ε := ε) others opts [trigger]
    (opts.maxQueueSize.getD 100) (some a) (by simp; omega)
  simp [AuthCore.runCalls, AuthCore.new, AuthCore.registerAdapter,
    RequestQueue.new, AuthCore.on401Sync, hadd, hrest]

/-- An `on401` call that finds the coordinator idle with a registered adapter
invokes the adapter refresh (exactly one `refreshCalled` event) and moves the
coordinator to the refreshing state. -/
theorem on401Sync_idle_events {τ ε : Type} (s : AuthCore τ) (a : Adapter)
    (w : τ) (hR : s.isRefreshing = false) (hA : s.adapter = some a) :
    (s.on401Sync (ε := ε) w).events = [Ev.refreshCalled]
      ∧ (s.on401Sync (ε := ε) w).state.isRefreshing = true := by
  cases hadd : s.queue.add w with
  | ok q =>
    constructor <;> simp [AuthCore.on401Sync, hR, hadd, hA]
  | error msg =>
    constructor <;> simp [AuthCore.on401Sync, hR, hadd, hA]

/-! Claim theorems about the coordinator. -/

/-- Claim C1: for a batch of N ≥ 1 `on401` calls (a triggering call plus any
number of later calls arriving while the refresh is pending), the adapter
refresh is invoked exactly once; moreover any `on401` call that finds the
coordinator refreshing performs no adapter invocation at all and only appends
its waiter (when the queue is below capacity). -/
theorem single_flight {τ ε : Type} (opts : AuthCoreOptions) (a : Adapter)
    (trigger : τ) (others : List τ) :
    countRefreshCalled
        ((((AuthCore.new opts).registerAdapter a).runCalls (ε := ε)
            (trigger :: others)).2) = 1
      ∧ (∀ (s : AuthCore τ) (w : τ), s.isRefreshing = true →
          (s.on401Sync (ε := ε) w).events = []
            ∧ (s.on401Sync (ε := ε) w).state.isRefreshing = true
            ∧ (s.queue.queue.length < s.queue.maxSize →
                (s.on401Sync (ε := ε) w).state.queue.queue
                  = s.queue.queue ++ [w])) := by
  refine ⟨?_, fun s w h => on401Sync_refreshing s w h⟩
  obtain ⟨hev, hrefr⟩ := on401Sync_idle_events (ε := ε)
    ((AuthCore.new opts).registerAdapter a) a trigger rfl rfl
  have hrest := runCalls_refreshing_events (ε := ε) others
    (((AuthCore.new opts).registerAdapter a).on401Sync (ε := ε)
      trigger).state hrefr
  simp only [AuthCore.runCalls]
  rw [hev, hrest]
  simp [countRefreshCalled]

/-- Witness for `single_flight`: three concurrent calls, and one further call
against an explicitly refreshing state with spare capacity. -/
theorem single_flight_witness :
    countRefreshCalled ((((AuthCore.new ⟨none, none⟩).registerAdapter
          ⟨true⟩).runCalls (ε := String) ([0, 1, 2] : List Nat)).2) = 1
      ∧ (((⟨⟨none, none⟩, true, ⟨[5], 7⟩, some ⟨true⟩⟩ : AuthCore Nat).on401Sync
            (ε := String) 9).events = []
        ∧ ((⟨⟨none, none⟩, true, ⟨[5], 7⟩, some ⟨true⟩⟩ : AuthCore Nat).on401Sync
            (ε := String) 9).state.isRefreshing = true
        ∧ ((⟨⟨none, none⟩, true, ⟨[5], 7⟩, some ⟨true⟩⟩ : AuthCore Nat).on401Sync
            (ε := String) 9).state.queue.queue = [5, 9]) := by
  have h := single_flight (τ := Nat) (ε := String) ⟨none, none⟩ ⟨true⟩ 0 [1, 2]
  refine ⟨h.1, ?_⟩
  have h2 := h.2 ⟨⟨none, none⟩, true, ⟨[5], 7⟩, some ⟨true⟩⟩ 9 rfl
  exact ⟨h2.1, h2.2.1, by simpa using h2.2.2 (by decide)⟩

/-- Claim C2: when the refresh resolves with a non-empty credential, the trace
of the whole cycle is exactly one refresh invocation, then `applyToken` with
that credential, then (strictly afterwards) the release of every queued waiter
(the triggering caller first, then the others in FIFO order) with the explicit
value `true`; the final waiter count is 0 and the coordinator is idle. -/
theorem success_fanout {τ ε : Type} (opts : AuthCoreOptions) (a : Adapter)
    (tok : String) (trigger : τ) (others : List τ)
    (htok : tok ≠ "")
    (hcap : others.length + 1 ≤ opts.maxQueueSize.getD 100) :
    (AuthCore.scenario (ε := ε) opts a (.ok (some tok)) trigger others).2
        = Ev.refreshCalled :: Ev.applyToken tok
            :: (trigger :: others).map (fun w => Ev.resolved w (some true))
      ∧ (AuthCore.scenario (ε := ε) opts a (.ok (some tok)) trigger
          others).1.queueSize = 0
      ∧ (AuthCore.scenario (ε := ε) opts a (.ok (some tok)) trigger
          others).1.refreshing = false := by
  have hrun := runCalls_from_idle (ε := ε) opts a trigger others hcap
  refine ⟨?_, ?_, ?_⟩ <;>
    simp [AuthCore.scenario, hrun, AuthCore.on401Resume, htok,
      RequestQueue.process, RequestQueue.clear, AuthCore.queueSize,
      RequestQueue.size, AuthCore.refreshing]

/-- Witness for `success_fanout`: three callers, credential `"tok"`. -/
theorem success_fanout_witness :
    ("tok" : String) ≠ ""
      ∧ ([1, 2] : List Nat).length + 1
          ≤ (⟨none, none⟩ : AuthCoreOptions).maxQueueSize.getD 100
      ∧ ((AuthCore.scenario (ε := String) ⟨none, none⟩ ⟨true⟩
            (.ok (some "tok")) (0 : Nat) [1, 2]).2
          = Ev.refreshCalled :: Ev.applyToken "tok"
              :: ([0, 1, 2] : List Nat).map (fun w => Ev.resolved w (some true))
        ∧ (AuthCore.scenario (ε := String) ⟨none, none⟩ ⟨true⟩
            (.ok (some "tok")) (0 : Nat) [1, 2]).1.queueSize = 0
        ∧ (AuthCore.scenario (ε := String) ⟨none, none⟩ ⟨true⟩
            (.ok (some "tok")) (0 : Nat) [1, 2]).1.refreshing = false) :=
  ⟨by decide, by decide,
   success_fanout ⟨none, none⟩ ⟨true⟩ "tok" 0 [1, 2] (by decide) (by decide)⟩

/-- Claim C3: when the refresh raises or resolves with an empty credential,
the trace of the whole cycle is one refresh invocation, then the rejection of
every queued waiter in FIFO order with the same reason (the raised error
unmodified, or the synthesized fixed-message refresh-failed error for an empty
credential), then — only after all rejections — the optional adapter sign-out;
the final waiter count is 0 and the coordinator is idle. -/
theorem failure_fanout {τ ε : Type} (opts : AuthCoreOptions) (a : Adapter)
    (res : Except ε (Option String)) (err : CoreError ε)
    (trigger : τ) (others : List τ)
    (herr : refreshFailReason res = some err)
    (hcap : others.length + 1 ≤ opts.maxQueueSize.getD 100) :
    (AuthCore.scenario (ε := ε) opts a res trigger others).2
        = Ev.refreshCalled
            :: ((trigger :: others).map (fun w => Ev.rejected w err)
                ++ if a.hasLogout then [Ev.logout] else [])
      ∧ (AuthCore.scenario (ε := ε) opts a res trigger others).1.queueSize = 0
      ∧ (AuthCore.scenario (ε := ε) opts a res trigger
          others).1.refreshing = false := by
  have hrun := runCalls_from_idle (ε := ε) opts a trigger others hcap
  cases res with
  | error e =>
    rw [refreshFailReason] at herr
    obtain rfl : CoreError.raised e = err := Option.some.inj herr
    refine ⟨?_, ?_, ?_⟩ <;>
      simp [AuthCore.scenario, hrun, AuthCore.on401Resume,
        AuthCore.handleRefreshFailure, RequestQueue.rejectAll,
        RequestQueue.clear, AuthCore.queueSize, RequestQueue.size,
        AuthCore.refreshing]
  | ok o =>
    cases o with
    | none =>
      rw [refreshFailReason] at herr
      obtain rfl : CoreError.errorMsg "Token refresh failed" = err :=
        Option.some.inj herr
      refine ⟨?_, ?_, ?_⟩ <;>
        simp [AuthCore.scenario, hrun, AuthCore.on401Resume,
          AuthCore.handleRefreshFailure, RequestQueue.rejectAll,
          RequestQueue.clear, AuthCore.queueSize, RequestQueue.size,
          AuthCore.refreshing]
    | some tok =>
      by_cases htok : tok = ""
      · subst htok
        have hfail : refreshFailReason (Except.ok (some "") : Except ε (Option String))
            = some (CoreError.errorMsg "Token refresh failed") := by
          simp [refreshFailReason]
        rw [hfail] at herr
        obtain rfl : CoreError.errorMsg "Token refresh failed" = err :=
          Option.some.inj herr
        refine ⟨?_, ?_, ?_⟩ <;>
          simp [AuthCore.scenario, hrun, AuthCore.on401Resume,
            AuthCore.handleRefreshFailure, RequestQueue.rejectAll,
            RequestQueue.clear, AuthCore.queueSize, RequestQueue.size,
            AuthCore.refreshing]
      · exfalso
        have hnone : refreshFailReason (Except.ok (some tok) : Except ε (Option String))
            = none := by
          simp [refreshFailReason, htok]
        rw [hnone] at herr
        exact Option.noConfusion herr

/-- Witness for `failure_fanout`: two callers, refresh rejecting with
`"boom"`, adapter with a `logout` member. -/
theorem failure_fanout_witness :
    refreshFailReason (.error "boom" : Except String (Option String))
        = some (CoreError.raised "boom")
      ∧ ([1] : List Nat).length + 1
          ≤ (⟨none, none⟩ : AuthCoreOptions).maxQueueSize.getD 100
      ∧ ((AuthCore.scenario (ε := String) ⟨none, none⟩ ⟨true⟩ (.error "boom")
            (0 : Nat) [1]).2
          = Ev.refreshCalled
              :: (([0, 1] : List Nat).map
                    (fun w => Ev.rejected w (CoreError.raised "boom"))
                  ++ if (⟨true⟩ : Adapter).hasLogout then [Ev.logout] else [])
        ∧ (AuthCore.scenario (ε := String) ⟨none, none⟩ ⟨true⟩ (.error "boom")
            (0 : Nat) [1]).1.queueSize = 0
        ∧ (AuthCore.scenario (ε := String) ⟨none, none⟩ ⟨true⟩ (.error "boom")
            (0 : Nat) [1]).1.refreshing = false) :=
  ⟨by decide, by decide,
   failure_fanout ⟨none, none⟩ ⟨true⟩ (.error "boom")
     (CoreError.raised "boom") 0 [1] (by decide) (by decide)⟩

/-- Claim C6: an `on401` call on an idle coordinator with no registered
adapter runs to completion without suspending, rejects the calling waiter
with the adapter-not-registered error (and performs no sign-out), and leaves
the coordinator state as it found it: same refreshing flag, same waiter
count, still no adapter. -/
theorem adapter_not_registered {τ ε : Type} (s : AuthCore τ) (w : τ)
    (hA : s.adapter = none) (hR : s.isRefreshing = false)
    (hQ : s.queue.queue = []) (hcap : 0 < s.queue.maxSize) :
    (s.on401Sync (ε := ε) w).events
        = [Ev.rejected w (.errorMsg "Adapter not registered")]
      ∧ (s.on401Sync (ε := ε) w).phase = SyncPhase.completed
      ∧ (s.on401Sync (ε := ε) w).state.refreshing = s.refreshing
      ∧ (s.on401Sync (ε := ε) w).state.queueSize = s.queueSize
      ∧ (s.on401Sync (ε := ε) w).state.adapter = s.adapter := by
  have hadd := RequestQueue.add_ok_of_lt s.queue w (by rw [hQ]; simpa using hcap)
  refine ⟨?_, ?_, ?_, ?_, ?_⟩ <;>
    simp [AuthCore.on401Sync, hR, hadd, hA, AuthCore.handleRefreshFailure,
      RequestQueue.rejectAll, RequestQueue.clear, hQ, AuthCore.refreshing,
      AuthCore.queueSize, RequestQueue.size]

/-- Witness for `adapter_not_registered` on a freshly constructed
coordinator. -/
theorem adapter_not_registered_witness :
    ((⟨⟨none, none⟩, false, ⟨[], 100⟩, none⟩ : AuthCore Nat).adapter = none
        ∧ (⟨⟨none, none⟩, false, ⟨[], 100⟩, none⟩ : AuthCore Nat).isRefreshing
            = false
        ∧ (⟨⟨none, none⟩, false, ⟨[], 100⟩, none⟩ : AuthCore Nat).queue.queue
            = []
        ∧ 0 < (⟨⟨none, none⟩, false, ⟨[], 100⟩, none⟩
            : AuthCore Nat).queue.maxSize)
      ∧ (((⟨⟨none, none⟩, false, ⟨[], 100⟩, none⟩ : AuthCore Nat).on401Sync
            (ε := String) 0).events
          = [Ev.rejected 0 (.errorMsg "Adapter not registered")]
        ∧ ((⟨⟨none, none⟩, false, ⟨[], 100⟩, none⟩ : AuthCore Nat).on401Sync
            (ε := String) 0).phase = SyncPhase.completed
        ∧ ((⟨⟨none, none⟩, false, ⟨[], 100⟩, none⟩ : AuthCore Nat).on401Sync
            (ε := String) 0).state.refreshing
          = (⟨⟨none, none⟩, false, ⟨[], 100⟩, none⟩ : AuthCore Nat).refreshing
        ∧ ((⟨⟨none, none⟩, false, ⟨[], 100⟩, none⟩ : AuthCore Nat).on401Sync
            (ε := String) 0).state.queueSize
          = (⟨⟨none, none⟩, false, ⟨[], 100⟩, none⟩ : AuthCore Nat).queueSize
        ∧ ((⟨⟨none, none⟩, false, ⟨[], 100⟩, none⟩ : AuthCore Nat).on401Sync
            (ε := String) 0).state.adapter
          = (⟨⟨none, none⟩, false, ⟨[], 100⟩, none⟩ : AuthCore Nat).adapter) :=
  ⟨⟨rfl, rfl, rfl, by decide⟩,
   adapter_not_registered ⟨⟨none, none⟩, false, ⟨[], 100⟩, none⟩ 0
     rfl rfl rfl (by decide)⟩

end AuthRefreshQueue
